import Mathlib

/-!
Verification of a Dash dashboard (`src/app.py`) that loads weather-station
metadata and historical sensor readings from a PostgreSQL database and renders
a station map plus a per-station time-series chart.

The embedding follows the source:
* SQL numeric values are `SqlNum` (`null`, `nan`, or a rational), since the
  `numeric` type of the database admits a NaN sentinel next to SQL NULL.
* the projection of `obtener_datos_historicos` is `mkHistRow`; its WHERE
  clause and INNER JOINs become list comprehensions over a `DB` snapshot
  (the query has no ORDER BY, so the embedding keeps scan order);
* `estacion_a_codigo` (pandas `set_index(...).to_dict()`) becomes an
  insertion-ordered association list where a later row overwrites the value
  stored for an existing key, exactly like a Python dict;
* the callback `actualizar_grafico` becomes a pure function producing a
  `Figure` (the arguments `px.line` receives: data points, axis columns,
  title);
* `conectar_bd` and the module-level catalog load become `Option`/`Except`
  values; the `None`-engine crash of `engine.connect()` is the constructor
  `PyError.attributeError`.
-/

/-- A SQL `numeric` value as it travels through the query: SQL NULL, the
special `NaN` sentinel the `numeric` type admits, or an actual number
(modelled as a rational). -/
inductive SqlNum where
  | null : SqlNum
  | nan : SqlNum
  | num : ℚ → SqlNum
deriving DecidableEq

/-- Round half away from zero to an integer, the behaviour of PostgreSQL
`ROUND` on `numeric` arguments. -/
def roundHalfAway (q : ℚ) : ℤ :=
  if 0 ≤ q then ⌊q + 1 / 2⌋ else -⌊-q + 1 / 2⌋

/-- PostgreSQL `ROUND(x::numeric, n)` on a finite numeric value. -/
def roundTo (n : ℕ) (q : ℚ) : ℚ :=
  (roundHalfAway (q * 10 ^ n) : ℚ) / 10 ^ n

/-- `ROUND(x::numeric, n)` lifted to SQL values: NULL and NaN propagate
unchanged (PostgreSQL `round` of `numeric` NaN is NaN). -/
def roundSql (n : ℕ) : SqlNum → SqlNum
  | .null => .null
  | .nan => .nan
  | .num q => .num (roundTo n q)

/-- `NULLIF(x, 'NaN')` on a numeric value: NaN becomes NULL, everything else
is unchanged. -/
def nullifNaN : SqlNum → SqlNum
  | .nan => .null
  | v => v

/-- A date as the historical query consumes it: `to_char` only ever extracts
the year and the month of `re.fecha`. -/
structure Fecha where
  year : ℕ
  month : ℕ
deriving DecidableEq

/-- `to_char(fecha, 'MM')`: two-digit zero-padded month. -/
def toCharMM (d : Fecha) : String :=
  if d.month < 10 then "0" ++ toString d.month else toString d.month

/-- `to_char(fecha, 'YYYY-MM')`, the `"mes"` column. -/
def toCharYYYYMM (d : Fecha) : String :=
  toString d.year ++ "-" ++ toCharMM d

/-- Spanish month name, as `TMMonth` renders it under the Spanish locale. -/
def mesNombre : ℕ → String
  | 1 => "Enero" | 2 => "Febrero" | 3 => "Marzo" | 4 => "Abril"
  | 5 => "Mayo" | 6 => "Junio" | 7 => "Julio" | 8 => "Agosto"
  | 9 => "Septiembre" | 10 => "Octubre" | 11 => "Noviembre" | 12 => "Diciembre"
  | _ => ""

/-- `to_char(fecha, 'TMMonth "de" YYYY')`, the `"mes_formateado"` column. -/
def toCharMesDe (d : Fecha) : String :=
  mesNombre d.month ++ " de " ++ toString d.year

/-- A row of `medio_fisico.registro_monitoreo` restricted to the columns the
query touches. -/
structure RegistroRow where
  cod_estacion : String
  objectid : ℕ
  fecha : Fecha
  temperatura : SqlNum
  humedad_relativa : SqlNum
  presion : SqlNum
  direccion_viento : SqlNum
  fuerza_viento : SqlNum
  precipitacion : SqlNum
  radiacion : SqlNum
deriving DecidableEq

/-- A row of `datos_maestros.estacion_punto_monitoreo` restricted to the
columns the historical query touches. -/
structure EstacionRow where
  cod_estacion : String
  objectid : ℕ
  institucion : String
  id_comuna : ℕ
deriving DecidableEq

/-- A row of `datos_maestros.dpa_comuna_subdere` restricted to the columns
the historical query touches. -/
structure ComunaRow where
  id_dpa_comuna : ℕ
  comuna : String
deriving DecidableEq

/-- The database snapshot the historical query reads. -/
structure DB where
  registro_monitoreo : List RegistroRow
  estacion_punto_monitoreo : List EstacionRow
  dpa_comuna_subdere : List ComunaRow
deriving DecidableEq

/-- An output row of `obtener_datos_historicos`, one column per item of its
SELECT list. -/
structure HistRow where
  cod_estacion : String
  mes : String
  mes_formateado : String
  temperatura : SqlNum
  humedad_relativa : SqlNum
  presion : SqlNum
  direccion_viento : SqlNum
  fuerza_viento : SqlNum
  precipitacion : SqlNum
  radiacion : SqlNum
deriving DecidableEq

/-- The SELECT projection of `obtener_datos_historicos`: every numeric column
is `ROUND(...::numeric, k)`, and only `radiacion` is first passed through
`NULLIF(re.radiacion, 'NaN')`. -/
def mkHistRow (re : RegistroRow) : HistRow :=
  { cod_estacion := re.cod_estacion
    mes := toCharYYYYMM re.fecha
    mes_formateado := toCharMesDe re.fecha
    temperatura := roundSql 2 re.temperatura
    humedad_relativa := roundSql 1 re.humedad_relativa
    presion := roundSql 2 re.presion
    direccion_viento := roundSql 2 re.direccion_viento
    fuerza_viento := roundSql 2 re.fuerza_viento
    precipitacion := roundSql 2 re.precipitacion
    radiacion := roundSql 2 (nullifNaN re.radiacion) }

/-- The rows one source row `re` of `registro_monitoreo` contributes to the
historical query result: the INNER JOIN with `estacion_punto_monitoreo` on
`(cod_estacion, objectid)` and with `dpa_comuna_subdere` on the comuna id,
kept only WHERE `institucion = 'DMC'`, `comuna = 'Antofagasta'` and
`to_char(fecha,'YYYY') = '2023'` (equivalently, the year of `fecha` is
2023). -/
def filasDeRegistro (est : List EstacionRow) (com : List ComunaRow)
    (re : RegistroRow) : List HistRow :=
  (est.filter fun p =>
      decide (p.cod_estacion = re.cod_estacion ∧ p.objectid = re.objectid)).flatMap fun p =>
    (com.filter fun c =>
        decide (p.id_comuna = c.id_dpa_comuna)).filterMap fun c =>
      if p.institucion = "DMC" ∧ c.comuna = "Antofagasta" ∧ re.fecha.year = 2023
      then some (mkHistRow re) else none

/-- The historical query of `obtener_datos_historicos`: the join and WHERE
clause of `filasDeRegistro`, applied along the scan of
`registro_monitoreo`. The query text has no ORDER BY, so the embedding
returns rows in scan order. -/
def obtener_datos_historicos (db : DB) : List HistRow :=
  db.registro_monitoreo.flatMap
    (filasDeRegistro db.estacion_punto_monitoreo db.dpa_comuna_subdere)

/-- A row of `geometrias_df`, as produced by the station query of
`obtener_geometrias`: one column per item of its SELECT list (the opaque
geometry column is omitted, the app only reads the projected latitude and
longitude). -/
structure GeomRow where
  cod_estacion : String
  nombre : String
  region : String
  comuna : String
  cuenca_dga : String
  sscuenca_dga : String
  zona : String
  altitud : ℚ
  latitud : ℚ
  longitud : ℚ
deriving DecidableEq

/-- Minimum of a list of rationals, the pandas `Series.min()` used on the
`latitud` and `longitud` columns (`none` on an empty frame). -/
def listMin : List ℚ → Option ℚ
  | [] => none
  | x :: xs =>
    match listMin xs with
    | none => some x
    | some m => some (min x m)

/-- Maximum of a list of rationals, the pandas `Series.max()`. -/
def listMax : List ℚ → Option ℚ
  | [] => none
  | x :: xs =>
    match listMax xs with
    | none => some x
    | some m => some (max x m)

/-- `geometrias_df['latitud'].min()`. -/
def min_lat (geoms : List GeomRow) : Option ℚ := listMin (geoms.map (·.latitud))

/-- `geometrias_df['latitud'].max()`. -/
def max_lat (geoms : List GeomRow) : Option ℚ := listMax (geoms.map (·.latitud))

/-- `geometrias_df['longitud'].min()`. -/
def min_lon (geoms : List GeomRow) : Option ℚ := listMin (geoms.map (·.longitud))

/-- `geometrias_df['longitud'].max()`. -/
def max_lon (geoms : List GeomRow) : Option ℚ := listMax (geoms.map (·.longitud))

/-- `bounds = [[min_lat, min_lon], [max_lat, max_lon]]`. -/
def bounds (geoms : List GeomRow) : List (List (Option ℚ)) :=
  [[min_lat geoms, min_lon geoms], [max_lat geoms, max_lon geoms]]

/-- Insertion into a Python dict, modelled as an insertion-ordered
association list: an existing key keeps its position but its value is
overwritten; a new key is appended. -/
def dictInsert (d : List (String × String)) (k v : String) : List (String × String) :=
  if d.any (fun p => decide (p.1 = k)) then
    d.map (fun p => if p.1 = k then (p.1, v) else p)
  else d ++ [(k, v)]

/-- Python `dict.get(k, None)`. -/
def dictGet (d : List (String × String)) (k : String) : Option String :=
  (d.find? (fun p => decide (p.1 = k))).map (·.2)

/-- `estacion_a_codigo = geometrias_df.set_index('nombre de estacion')['codigo de estacion'].to_dict()`:
the dict built by inserting, in row order, each station name mapped to its
code — a later row with the same name overwrites the stored code. -/
def estacion_a_codigo (geoms : List GeomRow) : List (String × String) :=
  geoms.foldl (fun d s => dictInsert d s.nombre s.cod_estacion) []

/-- The click payload the map sends to the callback: `clickData['points'][0]`
of a Dash click event (such events always carry at least one point; only its
`hovertext`, the station display name, is read). -/
structure ClickData where
  hovertext : String
deriving DecidableEq

/-- What `px.line(df, x=..., y=..., title=...)` receives: the plotted
`(x, y)` points in dataframe row order, the two axis column names and the
title. -/
structure Figure where
  xcol : String
  ycol : String
  rows : List (String × SqlNum)
  title : String
deriving DecidableEq

/-- Column lookup `r[variable]` on a historical row, for the seven variable
names the dropdown offers. -/
def getVar (varName : String) (r : HistRow) : Option SqlNum :=
  if varName = "temperatura (°C)" then some r.temperatura
  else if varName = "humedad relativa (%)" then some r.humedad_relativa
  else if varName = "presión atmosferica (hPAS)" then some r.presion
  else if varName = "direccion viento (°)" then some r.direccion_viento
  else if varName = "fuerza viento (kt)" then some r.fuerza_viento
  else if varName = "precipitación (mm)" then some r.precipitacion
  else if varName = "radiacion (W/m²)" then some r.radiacion
  else none

/-- The callback `actualizar_grafico(variable, clickData)`, as a function of
the module-level `estacion_a_codigo` dict and `datos_historicos_df`:
with a click it resolves the hover text through the dict, filters the
historical frame by the resolved station code and plots it; an unresolved
name or a missing click yields an empty figure with the corresponding
placeholder title. -/
def actualizar_grafico (dict : List (String × String)) (hist : List HistRow)
    (varName : String) (clickData : Option ClickData) : Figure :=
  match clickData with
  | some click =>
    match dictGet dict click.hovertext with
    | some codigo =>
      let df_filtrado := hist.filter (fun r => decide (r.cod_estacion = codigo))
      { xcol := "mes"
        ycol := varName
        rows := df_filtrado.filterMap (fun r => (getVar varName r).map (fun v => (r.mes, v)))
        title := varName ++ " en " ++ click.hovertext }
    | none =>
      { xcol := "mes", ycol := varName, rows := []
        title := "No se encontró la estación seleccionada" }
  | none =>
    { xcol := "mes", ycol := varName, rows := []
      title := "Selecciona una estación en el mapa" }

/-- The figure the graph displays after a sequence of clicks: Dash replaces
the `grafico-historico` figure with the callback's return value on every
click, starting from the no-click placeholder. The callback reads only the
dict and the frame loaded once at startup; it performs no per-selection
asynchronous fetch. -/
def renderLoop (dict : List (String × String)) (hist : List HistRow)
    (varName : String) (clicks : List ClickData) : Figure :=
  clicks.foldl (fun _ c => actualizar_grafico dict hist varName (some c))
    (actualizar_grafico dict hist varName none)

/-- The `.env` values the app reads through `config.get`. -/
structure Config where
  DB_HOST_P : Option String
  DB_NAME_P : Option String
  DB_USER_P : Option String
  DB_PASSWORD_P : Option String
deriving DecidableEq

/-- Python truthiness of a `config.get` result: `None` and the empty string
are falsy, so `all([...])` rejects both. -/
def pyTruthy : Option String → Bool
  | none => false
  | some s => decide (s ≠ "")

/-- The SQLAlchemy engine, reduced to the connection string it was created
with. -/
structure Engine where
  connection_string : String
deriving DecidableEq

/-- `conectar_bd()`: if any of the four configuration values is missing or
empty, print a message and return `None`; otherwise build the engine from
the f-string connection URL. -/
def conectar_bd (config : Config) : Option Engine :=
  if [config.DB_HOST_P, config.DB_NAME_P, config.DB_USER_P,
      config.DB_PASSWORD_P].all pyTruthy then
    some ⟨"postgresql://" ++ config.DB_USER_P.getD "" ++ ":"
      ++ config.DB_PASSWORD_P.getD "" ++ "@" ++ config.DB_HOST_P.getD ""
      ++ "/" ++ config.DB_NAME_P.getD ""⟩
  else none

/-- The exception classes startup can raise in the paths modelled here.
`attributeError` is what `engine.connect()` raises when `conectar_bd`
returned `None` (Python `AttributeError` on `NoneType`);
`configurationError` is listed only for comparison with the spec's error
taxonomy — no code path of the app constructs it, the source defines no
exception class at all. -/
inductive PyError where
  | attributeError : PyError
  | configurationError : PyError
deriving DecidableEq

/-- The module-level catalog load `geometrias_df = obtener_geometrias(engine)`:
`obtener_geometrias` immediately evaluates `engine.connect()`, which raises
`AttributeError` when the engine is `None`; with a real engine the query
result (abstracted as the station rows the database holds) is returned. -/
def obtener_geometrias (engine : Option Engine) (stationRows : List GeomRow) :
    Except PyError (List GeomRow) :=
  match engine with
  | none => .error .attributeError
  | some _ => .ok stationRows

/-- The run of the callback over the module-level state (catalog frame,
historical frame, name-to-code dict): the body only calls `dict.get`,
boolean-mask filtering (which builds a new frame) and `px.line`, none of
which writes to the globals, so the state after the call is the state
before it. -/
structure AppState where
  geometrias_df : List GeomRow
  datos_historicos_df : List HistRow
  dict : List (String × String)
deriving DecidableEq

/-- One invocation of `actualizar_grafico` against the app state: the
returned figure, paired with the module-level state as it stands after the
call. -/
def actualizar_grafico_run (st : AppState) (varName : String)
    (clickData : Option ClickData) : Figure × AppState :=
  (actualizar_grafico st.dict st.datos_historicos_df varName clickData, st)

/-! ### Helper lemmas -/

theorem listMin_le {l : List ℚ} {m x : ℚ} (h : listMin l = some m) (hx : x ∈ l) : m ≤ x := by
  induction l generalizing m with
  | nil => cases hx
  | cons a t ih =>
    rcases List.mem_cons.mp hx with rfl | hx'
    · unfold listMin at h
      cases ht : listMin t with
      | none => rw [ht] at h; simp only [Option.some.injEq] at h; exact le_of_eq h.symm
      | some mt => rw [ht] at h; simp only [Option.some.injEq] at h; subst h; exact min_le_left _ _
    · unfold listMin at h
      cases ht : listMin t with
      | none =>
        cases t with
        | nil => cases hx'
        | cons b t' => cases hbt : listMin t' <;> simp [listMin, hbt] at ht
      | some mt =>
        rw [ht] at h
        simp only [Option.some.injEq] at h
        subst h
        exact le_trans (min_le_right _ _) (ih ht hx')

theorem le_listMax {l : List ℚ} {m x : ℚ} (h : listMax l = some m) (hx : x ∈ l) : x ≤ m := by
  induction l generalizing m with
  | nil => cases hx
  | cons a t ih =>
    rcases List.mem_cons.mp hx with rfl | hx'
    · unfold listMax at h
      cases ht : listMax t with
      | none => rw [ht] at h; simp only [Option.some.injEq] at h; exact le_of_eq h
      | some mt => rw [ht] at h; simp only [Option.some.injEq] at h; subst h; exact le_max_left _ _
    · unfold listMax at h
      cases ht : listMax t with
      | none =>
        cases t with
        | nil => cases hx'
        | cons b t' => cases hbt : listMax t' <;> simp [listMax, hbt] at ht
      | some mt =>
        rw [ht] at h
        simp only [Option.some.injEq] at h
        subst h
        exact le_trans (ih ht hx') (le_max_right _ _)

theorem listMin_isSome {l : List ℚ} (h : l ≠ []) : ∃ m, listMin l = some m := by
  cases l with
  | nil => exact absurd rfl h
  | cons a t => cases ht : listMin t <;> simp [listMin, ht]

theorem listMax_isSome {l : List ℚ} (h : l ≠ []) : ∃ m, listMax l = some m := by
  cases l with
  | nil => exact absurd rfl h
  | cons a t => cases ht : listMax t <;> simp [listMax, ht]

theorem roundSql_nan_iff (k : ℕ) (v : SqlNum) : roundSql k v = SqlNum.nan ↔ v = SqlNum.nan := by
  cases v <;> simp [roundSql]

theorem roundSql_nullifNaN_ne_nan (k : ℕ) (v : SqlNum) :
    roundSql k (nullifNaN v) ≠ SqlNum.nan := by
  cases v <;> simp [roundSql, nullifNaN]

theorem roundSql_nullifNaN_null_iff (k : ℕ) (v : SqlNum) :
    roundSql k (nullifNaN v) = SqlNum.null ↔ v = SqlNum.nan ∨ v = SqlNum.null := by
  cases v <;> simp [roundSql, nullifNaN]

/-! ### Concrete inputs used by witnesses and counterexamples -/

/-- A station row of the catalog, with integral coordinates. -/
def mkGeomRow (cod nombre : String) (lat lon : ℚ) : GeomRow :=
  ⟨cod, nombre, "Antofagasta", "Antofagasta", "Costeras", "Costeras bajas", "Norte", 120, lat, lon⟩

/-- A source measurement row for station `E1` with the given month and
temperature / radiation values (all other readings NULL). -/
def mkRegistroRow (m : ℕ) (temp rad : SqlNum) : RegistroRow :=
  ⟨"E1", 1, ⟨2023, m⟩, temp, .null, .null, .null, .null, .null, rad⟩

/-- A snapshot whose station `E1` (institution DMC, comuna Antofagasta)
matches every measurement row in `regs`. -/
def mkDB (regs : List RegistroRow) : DB :=
  ⟨regs, [⟨"E1", 1, "DMC", 7⟩], [⟨7, "Antofagasta"⟩]⟩

/-! ### C1 -/

/-- C1 counterexample: on a source row whose `temperatura` is the NaN
sentinel (and whose `radiacion` also is), the fetched record hands
`temperatura = NaN` — not the missing marker NULL — to the rendering layer;
only `radiacion` is normalized to NULL. -/
theorem nan_no_normalizado_en_temperatura :
    (obtener_datos_historicos (mkDB [mkRegistroRow 1 SqlNum.nan SqlNum.nan])).map
        (fun r => (r.temperatura, r.radiacion)) = [(SqlNum.nan, SqlNum.null)] ∧
    SqlNum.nan ≠ SqlNum.null := by
  constructor
  · rfl
  · decide

/-- C1 amended: only the `radiacion` column's NaN sentinel is normalized to
the explicit missing marker (SQL NULL) by `NULLIF`; the six other numeric
columns pass the NaN sentinel through unchanged (in particular it is never
coerced to zero and the field is never dropped). -/
theorem solo_radiacion_normaliza_nan (re : RegistroRow) :
    (mkHistRow re).radiacion ≠ SqlNum.nan ∧
    ((mkHistRow re).radiacion = SqlNum.null ↔
      re.radiacion = SqlNum.nan ∨ re.radiacion = SqlNum.null) ∧
    ((mkHistRow re).temperatura = SqlNum.nan ↔ re.temperatura = SqlNum.nan) ∧
    ((mkHistRow re).humedad_relativa = SqlNum.nan ↔ re.humedad_relativa = SqlNum.nan) ∧
    ((mkHistRow re).presion = SqlNum.nan ↔ re.presion = SqlNum.nan) ∧
    ((mkHistRow re).direccion_viento = SqlNum.nan ↔ re.direccion_viento = SqlNum.nan) ∧
    ((mkHistRow re).fuerza_viento = SqlNum.nan ↔ re.fuerza_viento = SqlNum.nan) ∧
    ((mkHistRow re).precipitacion = SqlNum.nan ↔ re.precipitacion = SqlNum.nan) := by
  refine ⟨roundSql_nullifNaN_ne_nan _ _, roundSql_nullifNaN_null_iff _ _,
    roundSql_nan_iff _ _, roundSql_nan_iff _ _, roundSql_nan_iff _ _,
    roundSql_nan_iff _ _, roundSql_nan_iff _ _, roundSql_nan_iff _ _⟩

/-! ### C3 -/

/-- C3: every station of the loaded set lies inside the computed bounding
box: `min_lat ≤ latitud ≤ max_lat` and `min_lon ≤ longitud ≤ max_lon`, and
`bounds` is the pair of corner points built from these four values. -/
theorem bounds_contienen_estaciones (geoms : List GeomRow) (s : GeomRow) (hs : s ∈ geoms) :
    ∃ mlat Mlat mlon Mlon : ℚ,
      min_lat geoms = some mlat ∧ max_lat geoms = some Mlat ∧
      min_lon geoms = some mlon ∧ max_lon geoms = some Mlon ∧
      mlat ≤ s.latitud ∧ s.latitud ≤ Mlat ∧
      mlon ≤ s.longitud ∧ s.longitud ≤ Mlon ∧
      bounds geoms = [[some mlat, some mlon], [some Mlat, some Mlon]] := by
  have hne : geoms.map (·.latitud) ≠ [] := by
    intro hcon
    rw [List.map_eq_nil_iff] at hcon
    subst hcon
    cases hs
  have hne' : geoms.map (·.longitud) ≠ [] := by
    intro hcon
    rw [List.map_eq_nil_iff] at hcon
    subst hcon
    cases hs
  obtain ⟨mlat, hmlat⟩ := listMin_isSome hne
  obtain ⟨Mlat, hMlat⟩ := listMax_isSome hne
  obtain ⟨mlon, hmlon⟩ := listMin_isSome hne'
  obtain ⟨Mlon, hMlon⟩ := listMax_isSome hne'
  refine ⟨mlat, Mlat, mlon, Mlon, hmlat, hMlat, hmlon, hMlon, ?_, ?_, ?_, ?_, ?_⟩
  · exact listMin_le hmlat (List.mem_map_of_mem _ hs)
  · exact le_listMax hMlat (List.mem_map_of_mem _ hs)
  · exact listMin_le hmlon (List.mem_map_of_mem _ hs)
  · exact le_listMax hMlon (List.mem_map_of_mem _ hs)
  · simp [bounds, min_lat, max_lat, min_lon, max_lon, hmlat, hMlat, hmlon, hMlon]

/-- The two-station catalog used by the C3 witness. -/
def exGeomsC3 : List GeomRow :=
  [mkGeomRow "E1" "Cerro Moreno" (-23) (-70), mkGeomRow "E2" "Taltal" (-25) (-71)]

/-- C3 witness at a concrete two-station catalog. -/
theorem bounds_contienen_estaciones_witness :
    ∃ mlat Mlat mlon Mlon : ℚ,
      min_lat exGeomsC3 = some mlat ∧ max_lat exGeomsC3 = some Mlat ∧
      min_lon exGeomsC3 = some mlon ∧ max_lon exGeomsC3 = some Mlon ∧
      mlat ≤ (mkGeomRow "E2" "Taltal" (-25) (-71)).latitud ∧
      (mkGeomRow "E2" "Taltal" (-25) (-71)).latitud ≤ Mlat ∧
      mlon ≤ (mkGeomRow "E2" "Taltal" (-25) (-71)).longitud ∧
      (mkGeomRow "E2" "Taltal" (-25) (-71)).longitud ≤ Mlon ∧
      bounds exGeomsC3 = [[some mlat, some mlon], [some Mlat, some Mlon]] :=
  bounds_contienen_estaciones exGeomsC3 (mkGeomRow "E2" "Taltal" (-25) (-71)) (by decide)

/-! ### Dict lemmas -/

theorem dictGet_cons (a : String × String) (t : List (String × String)) (k' : String) :
    dictGet (a :: t) k' = if a.1 = k' then some a.2 else dictGet t k' := by
  by_cases h : a.1 = k'
  · rw [dictGet, List.find?_cons_of_pos _ (by simpa using h), if_pos h]
    rfl
  · rw [dictGet, List.find?_cons_of_neg _ (by simpa using h), if_neg h]
    rfl

theorem dictGet_map_update (d : List (String × String)) (k v k' : String) :
    dictGet (d.map (fun p => if p.1 = k then (p.1, v) else p)) k' =
      if k' = k then (if d.any (fun p => decide (p.1 = k)) then some v else none)
      else dictGet d k' := by
  induction d with
  | nil => by_cases h : k' = k <;> simp [dictGet, h]
  | cons a t ih =>
    have hfst : ((if a.1 = k then (a.1, v) else a) : String × String).1 = a.1 := by
      by_cases h : a.1 = k <;> simp [h]
    rw [List.map_cons, dictGet_cons, hfst, dictGet_cons, List.any_cons]
    by_cases hC : a.1 = k'
    · rw [if_pos hC, if_pos hC]
      by_cases hB : k' = k
      · have hA : a.1 = k := by rw [hC, hB]
        simp [hA, hB]
      · have hA : ¬ a.1 = k := by
          intro h
          exact hB (by rw [← hC, h])
        simp [hA, hB]
    · rw [if_neg hC, if_neg hC, ih]
      by_cases hB : k' = k
      · have hA : ¬ a.1 = k := by
          intro h
          exact hC (by rw [h, ← hB])
        rw [decide_eq_false hA, Bool.false_or]
      · simp [hB]

theorem dictGet_dictInsert (d : List (String × String)) (k v k' : String) :
    dictGet (dictInsert d k v) k' = if k' = k then some v else dictGet d k' := by
  unfold dictInsert
  by_cases hany : d.any (fun p => decide (p.1 = k))
  · rw [if_pos hany, dictGet_map_update, hany]
    by_cases hk : k' = k <;> simp [hk]
  · rw [if_neg hany]
    unfold dictGet
    rw [List.find?_append]
    by_cases hk : k' = k
    · subst hk
      have hnone : List.find? (fun p => decide (p.1 = k')) d = none := by
        rw [List.find?_eq_none]
        intro p hp
        simp only [decide_eq_true_eq]
        intro hcon
        exact hany (List.any_eq_true.mpr ⟨p, hp, by simp [hcon]⟩)
      rw [hnone]
      simp [List.find?]
    · have h1 : List.find? (fun p => decide (p.1 = k')) [(k, v)] = none := by
        have hfalse : (decide (((k, v) : String × String).1 = k')) = false :=
          decide_eq_false (fun hcon => hk hcon.symm)
        simp [List.find?_cons, hfalse]
      rw [h1]
      cases hfd : List.find? (fun p => decide (p.1 = k')) d with
      | none => simp [hk]
      | some p => simp [hk]

/-- `dictGet` after building `estacion_a_codigo`: the stored code for a name
is the code of the last catalog row bearing that name. -/
theorem dictGet_estacion_a_codigo (geoms : List GeomRow) (n : String) :
    dictGet (estacion_a_codigo geoms) n =
      (geoms.reverse.find? (fun s => decide (s.nombre = n))).map (·.cod_estacion) := by
  suffices h : ∀ d : List (String × String),
      dictGet (geoms.foldl (fun acc s => dictInsert acc s.nombre s.cod_estacion) d) n =
        ((geoms.reverse.find? (fun s => decide (s.nombre = n))).map (·.cod_estacion)).or
          (dictGet d n) by
    rw [estacion_a_codigo, h []]
    cases hfd : (geoms.reverse.find? (fun s => decide (s.nombre = n))).map (·.cod_estacion) <;>
      simp [dictGet, List.find?]
  induction geoms using List.reverseRecOn with
  | nil =>
    intro d
    simp [List.find?]
  | append_singleton l a ih =>
    intro d
    rw [List.foldl_append, List.foldl_cons, List.foldl_nil, dictGet_dictInsert,
      List.reverse_append]
    simp only [List.reverse_cons, List.reverse_nil, List.nil_append, List.cons_append]
    by_cases hn : a.nombre = n
    · rw [List.find?_cons_of_pos _ (by simpa using hn), if_pos (by rw [hn])]
      rfl
    · rw [List.find?_cons_of_neg _ (by simpa using hn),
        if_neg (fun hcon => hn hcon.symm)]
      exact ih d

/-! ### C9 -/

/-- C9: a click whose hover text matches at least one catalog row filters the
chart by the station code of the LAST catalog row bearing that display name
(the dict built by `set_index(...).to_dict()` keeps the last duplicate), so
stations sharing a name are indistinguishable to selection. -/
theorem click_usa_ultima_fila_con_nombre (geoms : List GeomRow) (hist : List HistRow)
    (varName n : String) (s : GeomRow)
    (hfind : geoms.reverse.find? (fun t => decide (t.nombre = n)) = some s) :
    actualizar_grafico (estacion_a_codigo geoms) hist varName (some ⟨n⟩) =
      { xcol := "mes"
        ycol := varName
        rows := (hist.filter (fun r => decide (r.cod_estacion = s.cod_estacion))).filterMap
          (fun r => (getVar varName r).map (fun v => (r.mes, v)))
        title := varName ++ " en " ++ n } := by
  have hget : dictGet (estacion_a_codigo geoms) n = some s.cod_estacion := by
    rw [dictGet_estacion_a_codigo, hfind]
    rfl
  simp [actualizar_grafico, hget]

/-- The duplicate-name catalog used by the C9 witness: two stations both
displayed as `Cerro Moreno`, with distinct codes `E1` and `E2`. -/
def exGeomsC9 : List GeomRow :=
  [mkGeomRow "E1" "Cerro Moreno" (-23) (-70), mkGeomRow "E2" "Cerro Moreno" (-25) (-71)]

/-- The historical rows used by the C9 witness: one row for each of the two
stations sharing the display name. -/
def exHistC9 : List HistRow :=
  [mkHistRow (mkRegistroRow 1 (SqlNum.num 18) SqlNum.null),
   mkHistRow ⟨"E2", 1, ⟨2023, 2⟩, SqlNum.num 21, .null, .null, .null, .null, .null, .null⟩]

/-- C9 witness: with two catalog rows both named `Cerro Moreno`, a click on
that name charts station `E2`, the last row's code. -/
theorem click_usa_ultima_fila_con_nombre_witness :
    actualizar_grafico (estacion_a_codigo exGeomsC9) exHistC9
        "temperatura (°C)" (some ⟨"Cerro Moreno"⟩) =
      { xcol := "mes"
        ycol := "temperatura (°C)"
        rows := (exHistC9.filter (fun r =>
            decide (r.cod_estacion =
              (mkGeomRow "E2" "Cerro Moreno" (-25) (-71)).cod_estacion))).filterMap
          (fun r => (getVar "temperatura (°C)" r).map (fun v => (r.mes, v)))
        title := "temperatura (°C)" ++ " en " ++ "Cerro Moreno" } :=
  click_usa_ultima_fila_con_nombre exGeomsC9 exHistC9 "temperatura (°C)" "Cerro Moreno"
    (mkGeomRow "E2" "Cerro Moreno" (-25) (-71)) (by decide)

/-! ### C4 -/

/-- C4: a click on a station the dict does resolve, but for which the
historical frame holds zero matching records, yields an empty point list
(the filter is total, no error path exists) rendered with the ordinary
per-station title — not an error figure. -/
theorem estacion_sin_registros_grafico_vacio (dict : List (String × String))
    (hist : List HistRow) (varName n codigo : String)
    (hres : dictGet dict n = some codigo)
    (hempty : hist.filter (fun r => decide (r.cod_estacion = codigo)) = []) :
    actualizar_grafico dict hist varName (some ⟨n⟩) =
      { xcol := "mes", ycol := varName, rows := [], title := varName ++ " en " ++ n } := by
  simp [actualizar_grafico, hres, hempty]

/-- C4 witness: station `Taltal` resolves to code `E9`, which has no rows in
the one-row historical frame. -/
theorem estacion_sin_registros_grafico_vacio_witness :
    actualizar_grafico [("Taltal", "E9")] [mkHistRow (mkRegistroRow 1 SqlNum.null SqlNum.null)]
        "temperatura (°C)" (some ⟨"Taltal"⟩) =
      { xcol := "mes", ycol := "temperatura (°C)", rows := []
        title := "temperatura (°C)" ++ " en " ++ "Taltal" } :=
  estacion_sin_registros_grafico_vacio [("Taltal", "E9")]
    [mkHistRow (mkRegistroRow 1 SqlNum.null SqlNum.null)] "temperatura (°C)" "Taltal" "E9"
    (by decide) (by decide)

/-! ### C5 -/

/-- C5: a click whose hover text resolves to no catalog station does not
crash — the callback is total and returns the explicit no-data figure
(empty point list, title `No se encontró la estación seleccionada`), and
whatever figure any earlier clicks produced is replaced by it. -/
theorem estacion_desconocida_no_data (dict : List (String × String)) (hist : List HistRow)
    (varName n : String) (l : List ClickData)
    (hnone : dictGet dict n = none) :
    renderLoop dict hist varName (l ++ [⟨n⟩]) =
      { xcol := "mes", ycol := varName, rows := []
        title := "No se encontró la estación seleccionada" } := by
  unfold renderLoop
  rw [List.foldl_append, List.foldl_cons, List.foldl_nil]
  simp [actualizar_grafico, hnone]

/-- C5 witness: after a click on the known station `Cerro Moreno`, a click
on the stale name `Fantasma` clears the chart to the no-data figure. -/
theorem estacion_desconocida_no_data_witness :
    renderLoop [("Cerro Moreno", "E1")] exHistC9 "temperatura (°C)"
        ([⟨"Cerro Moreno"⟩] ++ [⟨"Fantasma"⟩]) =
      { xcol := "mes", ycol := "temperatura (°C)", rows := []
        title := "No se encontró la estación seleccionada" } :=
  estacion_desconocida_no_data [("Cerro Moreno", "E1")] exHistC9 "temperatura (°C)"
    "Fantasma" [⟨"Cerro Moreno"⟩] (by decide)

/-! ### C7 -/

/-- C7: processing any click sequence ending in `b` leaves the figure of
`b` displayed, never that of an earlier click: the callback reads only the
data loaded once at startup and runs synchronously per event, so the last
selection always determines the rendered state. -/
theorem ultima_seleccion_gana (dict : List (String × String)) (hist : List HistRow)
    (varName : String) (l : List ClickData) (b : ClickData) :
    renderLoop dict hist varName (l ++ [b]) =
      actualizar_grafico dict hist varName (some b) := by
  unfold renderLoop
  rw [List.foldl_append, List.foldl_cons, List.foldl_nil]

/-! ### C10 -/

/-- C10: the callback is deterministic and does not mutate the loaded
state: running it leaves the catalog frame, the historical frame and the
name-to-code dict unchanged, and running it again on the state it returned
yields the same figure. -/
theorem actualizar_grafico_determinista_sin_mutacion (st : AppState) (varName : String)
    (c : Option ClickData) :
    (actualizar_grafico_run st varName c).2 = st ∧
    (actualizar_grafico_run (actualizar_grafico_run st varName c).2 varName c).1 =
      (actualizar_grafico_run st varName c).1 :=
  ⟨rfl, rfl⟩

/-! ### C6 -/

/-- Membership in the contribution of one scanned source row: every produced
record is the projection of that row, and the row passed the WHERE clause
(in particular its year is 2023). -/
theorem mem_filasDeRegistro {est : List EstacionRow} {com : List ComunaRow}
    {re : RegistroRow} {x : HistRow} (hx : x ∈ filasDeRegistro est com re) :
    x = mkHistRow re ∧ re.fecha.year = 2023 := by
  unfold filasDeRegistro at hx
  rw [List.mem_flatMap] at hx
  obtain ⟨p, hp, hx⟩ := hx
  rw [List.mem_filterMap] at hx
  obtain ⟨c, hc, hx⟩ := hx
  by_cases hcond : p.institucion = "DMC" ∧ c.comuna = "Antofagasta" ∧ re.fecha.year = 2023
  · rw [if_pos hcond] at hx
    exact ⟨(Option.some.inj hx).symm, hcond.2.2⟩
  · rw [if_neg hcond] at hx
    cases hx

/-- C6: every record of the historical fetch comes from a source row joined
to a station of institution `DMC` in comuna `Antofagasta` whose date lies in
the year 2023; no record outside that institution tag or year appears. -/
theorem historicos_filtra_dmc_y_2023 (db : DB) (r : HistRow)
    (hr : r ∈ obtener_datos_historicos db) :
    ∃ re ∈ db.registro_monitoreo, ∃ p ∈ db.estacion_punto_monitoreo,
      ∃ c ∈ db.dpa_comuna_subdere,
        p.cod_estacion = re.cod_estacion ∧ p.objectid = re.objectid ∧
        p.id_comuna = c.id_dpa_comuna ∧
        p.institucion = "DMC" ∧ c.comuna = "Antofagasta" ∧
        re.fecha.year = 2023 ∧ r = mkHistRow re := by
  unfold obtener_datos_historicos at hr
  rw [List.mem_flatMap] at hr
  obtain ⟨re, hre, hr⟩ := hr
  unfold filasDeRegistro at hr
  rw [List.mem_flatMap] at hr
  obtain ⟨p, hp, hr⟩ := hr
  rw [List.mem_filter] at hp
  obtain ⟨hp, hpcond⟩ := hp
  rw [List.mem_filterMap] at hr
  obtain ⟨c, hc, hr⟩ := hr
  rw [List.mem_filter] at hc
  obtain ⟨hc, hccond⟩ := hc
  simp only [decide_eq_true_eq] at hpcond hccond
  by_cases hcond : p.institucion = "DMC" ∧ c.comuna = "Antofagasta" ∧ re.fecha.year = 2023
  · rw [if_pos hcond] at hr
    exact ⟨re, hre, p, hp, c, hc, hpcond.1, hpcond.2, hccond, hcond.1, hcond.2.1,
      hcond.2.2, (Option.some.inj hr).symm⟩
  · rw [if_neg hcond] at hr
    cases hr

/-- The one-row snapshot used by the C6 witness. -/
def exDBC6 : DB := mkDB [mkRegistroRow 1 SqlNum.null SqlNum.null]

/-- C6 witness at the one-row snapshot. -/
theorem historicos_filtra_dmc_y_2023_witness :
    ∃ re ∈ exDBC6.registro_monitoreo, ∃ p ∈ exDBC6.estacion_punto_monitoreo,
      ∃ c ∈ exDBC6.dpa_comuna_subdere,
        p.cod_estacion = re.cod_estacion ∧ p.objectid = re.objectid ∧
        p.id_comuna = c.id_dpa_comuna ∧
        p.institucion = "DMC" ∧ c.comuna = "Antofagasta" ∧
        re.fecha.year = 2023 ∧
        mkHistRow (mkRegistroRow 1 SqlNum.null SqlNum.null) = mkHistRow re :=
  historicos_filtra_dmc_y_2023 exDBC6 (mkHistRow (mkRegistroRow 1 SqlNum.null SqlNum.null))
    (by decide)

/-! ### C2 -/

/-- Chronological key of a `"mes"` value: the number formed by its digits
(`"2023-05"` gives 202305), so `mesKey` order is timestamp order for the
zero-padded `YYYY-MM` strings the query emits. -/
def mesKey (s : String) : ℕ :=
  s.toList.foldl (fun n c => if c.isDigit then n * 10 + (c.toNat - 48) else n) 0

theorem mesKey_toCharYYYYMM (d : Fecha) (hy : d.year = 2023)
    (h1 : 1 ≤ d.month) (h2 : d.month ≤ 12) :
    mesKey (toCharYYYYMM d) = 202300 + d.month := by
  obtain ⟨y, m⟩ := d
  simp only at hy h1 h2 ⊢
  subst hy
  interval_cases m <;> rfl

theorem pairwise_const {α : Type} {R : α → α → Prop} {z : α} (hz : R z z) :
    ∀ {l : List α}, (∀ x ∈ l, x = z) → l.Pairwise R := by
  intro l
  induction l with
  | nil => intro _; exact List.Pairwise.nil
  | cons a t ih =>
    intro h
    refine List.Pairwise.cons ?_ (ih fun x hx => h x (List.mem_cons_of_mem _ hx))
    intro y hy
    rw [h a (List.mem_cons_self a t), h y (List.mem_cons_of_mem _ hy)]
    exact hz

theorem pairwise_flatMap_filas (est : List EstacionRow) (com : List ComunaRow) :
    ∀ l : List RegistroRow,
      (∀ re ∈ l, 1 ≤ re.fecha.month ∧ re.fecha.month ≤ 12) →
      l.Pairwise (fun a b =>
        a.fecha.year * 100 + a.fecha.month ≤ b.fecha.year * 100 + b.fecha.month) →
      (l.flatMap (filasDeRegistro est com)).Pairwise
        (fun r1 r2 => mesKey r1.mes ≤ mesKey r2.mes) := by
  intro l
  induction l with
  | nil =>
    intro _ _
    simp
  | cons a t ih =>
    intro hmes hord
    rw [List.flatMap_cons, List.pairwise_append]
    refine ⟨?_, ?_, ?_⟩
    · exact pairwise_const (R := fun r1 r2 => mesKey r1.mes ≤ mesKey r2.mes)
        (z := mkHistRow a) le_rfl (fun x hx => (mem_filasDeRegistro hx).1)
    · exact ih (fun re hre => hmes re (List.mem_cons_of_mem _ hre))
        (List.pairwise_cons.mp hord).2
    · intro x hx y hy
      obtain ⟨hxeq, hxyear⟩ := mem_filasDeRegistro hx
      rw [List.mem_flatMap] at hy
      obtain ⟨re2, hre2, hy'⟩ := hy
      obtain ⟨hyeq, hyyear⟩ := mem_filasDeRegistro hy'
      subst hxeq
      subst hyeq
      have hma := hmes a (List.mem_cons_self a t)
      have hmre := hmes re2 (List.mem_cons_of_mem _ hre2)
      have hrel := (List.pairwise_cons.mp hord).1 re2 hre2
      have k1 : mesKey (mkHistRow a).mes = 202300 + a.fecha.month :=
        mesKey_toCharYYYYMM a.fecha hxyear hma.1 hma.2
      have k2 : mesKey (mkHistRow re2).mes = 202300 + re2.fecha.month :=
        mesKey_toCharYYYYMM re2.fecha hyyear hmre.1 hmre.2
      show mesKey (mkHistRow a).mes ≤ mesKey (mkHistRow re2).mes
      rw [k1, k2]
      omega

/-- C2 amended: the fetch imposes no ordering of its own (the query has no
ORDER BY and no station-code tie-break); it only filters and projects along
the scan, so the output is in chronological order exactly when the scan of
the source table already is: a date-sorted source scan (with well-formed
months) yields an output whose `"mes"` keys are ascending. -/
theorem historicos_preserva_orden_escaneo (db : DB)
    (hmes : ∀ re ∈ db.registro_monitoreo, 1 ≤ re.fecha.month ∧ re.fecha.month ≤ 12)
    (hord : db.registro_monitoreo.Pairwise (fun a b =>
      a.fecha.year * 100 + a.fecha.month ≤ b.fecha.year * 100 + b.fecha.month)) :
    (obtener_datos_historicos db).Pairwise
      (fun r1 r2 => mesKey r1.mes ≤ mesKey r2.mes) :=
  pairwise_flatMap_filas db.estacion_punto_monitoreo db.dpa_comuna_subdere
    db.registro_monitoreo hmes hord

/-- The date-sorted snapshot used by the C2 witness. -/
def exDBOrden : DB :=
  mkDB [mkRegistroRow 1 SqlNum.null SqlNum.null, mkRegistroRow 2 SqlNum.null SqlNum.null]

/-- C2 witness at a snapshot whose scan is date-sorted. -/
theorem historicos_preserva_orden_escaneo_witness :
    (obtener_datos_historicos exDBOrden).Pairwise
      (fun r1 r2 => mesKey r1.mes ≤ mesKey r2.mes) :=
  historicos_preserva_orden_escaneo exDBOrden (by decide) (by decide)

/-- The snapshot whose scan is NOT date-sorted, used by the C2
counterexample. -/
def exDBDesorden : DB :=
  mkDB [mkRegistroRow 5 SqlNum.null SqlNum.null, mkRegistroRow 3 SqlNum.null SqlNum.null]

/-- C2 counterexample: on a snapshot whose scan order puts May before March,
the fetch returns `["2023-05", "2023-03"]` — not ascending by timestamp —
because the query never sorts. -/
theorem salida_historicos_sin_orden :
    (obtener_datos_historicos exDBDesorden).map (fun r => r.mes) =
      ["2023-05", "2023-03"] ∧
    ¬ (obtener_datos_historicos exDBDesorden).Pairwise
        (fun r1 r2 => mesKey r1.mes ≤ mesKey r2.mes) := by
  constructor
  · rfl
  · decide

/-! ### C8 -/

/-- C8 amended: when any of the four required configuration values is
missing (or empty, which Python truthiness also rejects), `conectar_bd`
returns no engine — it prints a message instead of raising — and the
module-level catalog load then dies at startup with a generic
`AttributeError` from `None.connect()`: the failure is fatal and no catalog
loads, but no dedicated `ConfigurationError` type is signalled. -/
theorem config_faltante_fatal_en_arranque (cfg : Config) (stationRows : List GeomRow)
    (h : pyTruthy cfg.DB_HOST_P = false ∨ pyTruthy cfg.DB_NAME_P = false ∨
         pyTruthy cfg.DB_USER_P = false ∨ pyTruthy cfg.DB_PASSWORD_P = false) :
    conectar_bd cfg = none ∧
    obtener_geometrias (conectar_bd cfg) stationRows =
      Except.error PyError.attributeError := by
  have hall : ([cfg.DB_HOST_P, cfg.DB_NAME_P, cfg.DB_USER_P,
      cfg.DB_PASSWORD_P].all pyTruthy) = false := by
    rcases h with h | h | h | h <;> simp [List.all, h]
  have hcon : conectar_bd cfg = none := by
    simp [conectar_bd, hall]
  exact ⟨hcon, by rw [hcon]; rfl⟩

/-- The configuration with a missing host, used by the C8 witness and
counterexample. -/
def exConfigFalta : Config := ⟨none, some "db", some "user", some "pw"⟩

/-- C8 witness: with the host missing, no engine is built and the startup
catalog load fails. -/
theorem config_faltante_fatal_en_arranque_witness :
    conectar_bd exConfigFalta = none ∧
    obtener_geometrias (conectar_bd exConfigFalta) [] =
      Except.error PyError.attributeError :=
  config_faltante_fatal_en_arranque exConfigFalta [] (Or.inl (by decide))

/-- C8 counterexample: the startup failure on missing configuration is the
generic `AttributeError`, which is not a dedicated `ConfigurationError`. -/
theorem fallo_config_attribute_error :
    obtener_geometrias (conectar_bd exConfigFalta) [] =
      Except.error PyError.attributeError ∧
    PyError.attributeError ≠ PyError.configurationError :=
  ⟨rfl, by decide⟩
